import Mathlib

/-!
Shallow embedding of `run_production.py` (adrata/adrata-pipelines).

The script is a batch driver: it loads company rows from a CSV file,
derives a normalized record per row, submits three fixed batches
("core", "advanced", "powerhouse") to a remote endpoint via curl, writes
each non-empty batch response to a CSV file, and writes a summary.

Modelling conventions:
* Python strings are modelled as `String` / `List Char`; the relevant
  Python primitives (`str.replace`, `str.split`, `str.title`) are
  re-implemented below with their documented semantics (ASCII inputs).
* A CSV row (a `csv.DictReader` dict) is an association list from field
  names to string values with distinct keys.
* JSON values are the inductive `Json`; Python's dynamic operations on
  them (`len`, `in`, indexing, `.keys()`, iteration) are total functions
  into `Except PyErr _`, where `PyErr` stands for the uncaught Python
  exception that the corresponding operation would raise.
* Wall-clock time is external input: `main` is parameterized by a
  `ClockTrace` giving the values returned by the successive `time.time()`
  calls.  Real-valued times are idealized as rationals.
* Network traffic is external input: each call of `run_single_pipeline`
  is parameterized by a `Fetch` describing the curl outcome.
-/

namespace Adrata

/-! ### Python string primitives -/

/-- One scanning pass of Python `str.replace`: leftmost, non-overlapping,
the replacement text is not rescanned.  `skip` counts characters of a
matched occurrence that still have to be consumed without testing. -/
def replaceGo (pat rep : List Char) : Nat → List Char → List Char
  | _, [] => []
  | skip+1, _ :: cs => replaceGo pat rep skip cs
  | 0, c :: cs =>
    if pat.isPrefixOf (c :: cs) then rep ++ replaceGo pat rep (pat.length - 1) cs
    else c :: replaceGo pat rep 0 cs

/-- Python `s.replace(pat, rep)` (for non-empty `pat`): replace every
occurrence of `pat` in `s` by `rep`, left to right, non-overlapping. -/
def pyReplace (s pat rep : String) : String :=
  String.mk (replaceGo pat.toList rep.toList 0 s.toList)

/-- Python `s.split(sep)` for a one-character separator: always returns at
least one piece; adjacent separators yield empty pieces. -/
def splitChar (sep : Char) : List Char → List (List Char)
  | [] => [[]]
  | c :: cs =>
    if c = sep then [] :: splitChar sep cs
    else
      match splitChar sep cs with
      | [] => [[c]]
      | t :: ts => (c :: t) :: ts

/-- Python `s.split('.')[0]`: the first piece (never an out-of-range
access, since `split` returns at least one piece). -/
def pySplitDotHead (s : String) : String :=
  String.mk ((splitChar '.' s.toList).headD [])

/-- Python `str.title` on ASCII text: an alphabetic character is
uppercased when the previous character is not alphabetic and lowercased
otherwise; non-alphabetic characters are kept and reset the word. -/
def titleGo : Bool → List Char → List Char
  | _, [] => []
  | prevCased, c :: cs =>
    if c.isAlpha then (if prevCased then c.toLower else c.toUpper) :: titleGo true cs
    else c :: titleGo false cs

/-- Python `s.title()` (ASCII). -/
def pyTitle (s : String) : String :=
  String.mk (titleGo false s.toList)

/-! ### Record loader (`load_companies`, lines 10-24) -/

/-- `run_production.py` line 18:
`website.replace('https://', '').replace('http://', '').replace('www.', '').split('.')[0].title()`. -/
def deriveCompanyName (website : String) : String :=
  pyTitle (pySplitDotHead (pyReplace (pyReplace (pyReplace website "https://" "") "http://" "") "www." ""))

/-- One normalized company record (the dict built at lines 19-23). -/
structure Record where
  companyName : String
  domain : String
  accountOwner : String
  deriving DecidableEq, Repr

/-- One `csv.DictReader` row: field name to value, distinct keys. -/
abbrev Row := List (String × String)

/-- The loader's per-row failure: Python `KeyError` on a missing field
(the spec's `MissingFieldError`), tagged with the field name. -/
inductive LoadError where
  | missingField (name : String)
  deriving DecidableEq, Repr

/-- Lines 17-23: project one row into a `Record`.  `row['Website']` is
evaluated first (line 17), `row['Account Owner']` afterwards (line 22);
a missing key raises `KeyError`. -/
def mkRecord (row : Row) : Except LoadError Record :=
  match row.lookup "Website" with
  | none => .error (.missingField "Website")
  | some website =>
    match row.lookup "Account Owner" with
    | none => .error (.missingField "Account Owner")
    | some owner =>
      .ok { companyName := deriveCompanyName website, domain := website, accountOwner := owner }

/-- Line 15, `if limit and i >= limit: break`: Python truthiness makes
`limit=None` and `limit=0` both mean "no limit". -/
def limitHit (limit : Option Nat) (i : Nat) : Bool :=
  match limit with
  | none => false
  | some n => decide (n ≠ 0) && decide (i ≥ n)

/-- The `for i, row in enumerate(reader)` loop of lines 14-23. -/
def load_companies_go (limit : Option Nat) : Nat → List Row → Except LoadError (List Record)
  | _, [] => .ok []
  | i, row :: rest =>
    if limitHit limit i then .ok []
    else
      match mkRecord row with
      | .error e => .error e
      | .ok r =>
        match load_companies_go limit (i + 1) rest with
        | .error e => .error e
        | .ok rs => .ok (r :: rs)

/-- `load_companies(filename, limit)`, lines 10-24, with the file's parsed
data rows passed in place of the filename. -/
def load_companies (rows : List Row) (limit : Option Nat) : Except LoadError (List Record) :=
  load_companies_go limit 0 rows

/-! ### JSON values and the Python dynamic operations used on them -/

/-- A parsed JSON value (output of `json.loads`); `obj` is a Python dict,
so its association list has distinct keys. -/
inductive Json where
  | null
  | bool (b : Bool)
  | num (n : Int)
  | str (s : String)
  | arr (elems : List Json)
  | obj (fields : List (String × Json))

/-- The uncaught Python exception raised by a dynamic operation. -/
inductive PyErr where
  | typeError
  | keyError
  | indexError
  | attributeError
  | valueError
  deriving DecidableEq, Repr

/-- Substring test on character lists (Python `pat in s` for strings). -/
def hasSubList (pat : List Char) : List Char → Bool
  | [] => pat.isEmpty
  | c :: cs => pat.isPrefixOf (c :: cs) || hasSubList pat cs

/-- Python `'results' == x` for a list element `x`: true exactly when
`x` is an equal string (`==` across JSON types is `False`). -/
def jsonEqStr (x : Json) (k : String) : Bool :=
  match x with
  | .str s => s == k
  | _ => false

/-- Python `'k' in data` for a `json.loads` value: key test on a dict,
membership on a list, substring test on a string, `TypeError` on
scalars. -/
def pyContains (data : Json) (k : String) : Except PyErr Bool :=
  match data with
  | .obj fields => .ok (fields.any (fun kv => kv.1 == k))
  | .arr xs => .ok (xs.any (fun x => jsonEqStr x k))
  | .str s => .ok (hasSubList k.toList s.toList)
  | _ => .error .typeError

/-- Python `data['k']`: dict lookup (`KeyError` when absent); a string
key indexing a list or string raises `TypeError`, as does a scalar. -/
def pyGetItem (data : Json) (k : String) : Except PyErr Json :=
  match data with
  | .obj fields =>
    match fields.lookup k with
    | some v => .ok v
    | none => .error .keyError
  | _ => .error .typeError

/-- Python `len(x)`: defined for strings, lists and dicts; `TypeError`
on scalars. -/
def pyLen (x : Json) : Except PyErr Nat :=
  match x with
  | .str s => .ok s.length
  | .arr xs => .ok xs.length
  | .obj fields => .ok fields.length
  | _ => .error .typeError

/-- Python truthiness `bool(x)` of a JSON value. -/
def pyTruthy (x : Json) : Bool :=
  match x with
  | .null => false
  | .bool b => b
  | .num n => n != 0
  | .str s => s != ""
  | .arr xs => !xs.isEmpty
  | .obj fields => !fields.isEmpty

/-- Python `x[0]`: head of a list (`IndexError` when empty), first
character of a string, `KeyError` on a dict (a JSON dict has no key
`0`), `TypeError` on scalars. -/
def pyIndexZero (x : Json) : Except PyErr Json :=
  match x with
  | .arr [] => .error .indexError
  | .arr (v :: _) => .ok v
  | .str s =>
    match s.toList with
    | [] => .error .indexError
    | c :: _ => .ok (.str (String.mk [c]))
  | .obj _ => .error .keyError
  | _ => .error .typeError

/-- Python `x.keys()` as an ordered key list; `AttributeError` on
anything that is not a dict. -/
def pyKeys (x : Json) : Except PyErr (List String) :=
  match x with
  | .obj fields => .ok (fields.map (fun kv => kv.1))
  | _ => .error .attributeError

/-- Python iteration `for row in x`: list elements, string characters,
dict keys; `TypeError` on scalars. -/
def pyIter (x : Json) : Except PyErr (List Json) :=
  match x with
  | .arr xs => .ok xs
  | .str s => .ok (s.toList.map (fun c => .str (String.mk [c])))
  | .obj fields => .ok (fields.map (fun kv => .str kv.1))
  | _ => .error .typeError

/-! ### Batch submitter (`run_single_pipeline`, lines 26-73) -/

/-- `csv.DictWriter._dict_to_list`: raises `ValueError` when the row has
a key outside the header, `AttributeError` when the row is not a dict;
otherwise emits one cell per header key, missing keys as the `None`
restval. -/
def dict_to_list (fieldnames : List String) (row : Json) : Except PyErr (List Json) :=
  match row with
  | .obj fields =>
    if fields.all (fun kv => fieldnames.contains kv.1) then
      .ok (fieldnames.map (fun k => ((fields.lookup k).getD .null)))
    else .error .valueError
  | _ => .error .attributeError

/-- Effectful map over a list in `Except`, stopping at the first raised
exception (the `writer.writerows(results)` loop). -/
def mapExcept (f : Json → Except PyErr (List Json)) : List Json → Except PyErr (List (List Json))
  | [] => .ok []
  | x :: xs =>
    match f x with
    | .error e => .error e
    | .ok y =>
      match mapExcept f xs with
      | .error e => .error e
      | .ok ys => .ok (y :: ys)

/-- The outcome of the curl subprocess, the external input of one batch:
non-zero exit status, a body `json.loads` rejects, or a parsed value. -/
inductive Fetch where
  | curlFail
  | parseFail
  | parsed (data : Json)

/-- Contents of one written results CSV: header row and data rows. -/
structure CsvData where
  header : List String
  rows : List (List Json)

/-- Lines 48-73: handling of the curl outcome.  Returns the value bound
to `results` (the first component of the Python return pair) and the CSV
data written, if any; `.error` is an uncaught Python exception.
Only `json.JSONDecodeError` is caught (line 68), so any other exception
raised inside the `try` block escapes. -/
def processResponse (fetch : Fetch) : Except PyErr (Json × Option CsvData) :=
  match fetch with
  | .curlFail => .ok (.arr [], none)
  | .parseFail => .ok (.arr [], none)
  | .parsed data =>
    match pyContains data "results" with
    | .error e => .error e
    | .ok false => .ok (.arr [], none)
    | .ok true =>
      match pyGetItem data "results" with
      | .error e => .error e
      | .ok results =>
        match pyLen results with
        | .error e => .error e
        | .ok _ =>
          if pyTruthy results then
            match pyIndexZero results with
            | .error e => .error e
            | .ok row0 =>
              match pyKeys row0 with
              | .error e => .error e
              | .ok fieldnames =>
                match pyIter results with
                | .error e => .error e
                | .ok elems =>
                  match mapExcept (dict_to_list fieldnames) elems with
                  | .error e => .error e
                  | .ok rows => .ok (results, some ⟨fieldnames, rows⟩)
          else
            .ok (results, none)

/-- The JSON payload serialized at lines 30-34. -/
structure Payload where
  pipeline : String
  companies : List Record
  deriving DecidableEq, Repr

/-- A written results file: its path and contents. -/
structure CsvFile where
  name : String
  data : CsvData

/-- Observable outcome of one `run_single_pipeline` call: the submitted
payload, the returned `(results, elapsed)` pair, and the file written. -/
structure SubmitOut where
  payload : Payload
  results : Json
  elapsed : ℚ
  file : Option CsvFile

/-- `run_single_pipeline(pipeline_type, companies, output_dir)`, lines
26-73, with the curl outcome and the measured elapsed seconds as inputs.
The file path is line 56, `f"{output_dir}/{pipeline_type}-pipeline-results.csv"`. -/
def run_single_pipeline (pipeline_type : String) (companies : List Record)
    (output_dir : String) (fetch : Fetch) (elapsed : ℚ) : Except PyErr SubmitOut :=
  match processResponse fetch with
  | .error e => .error e
  | .ok (results, written) =>
    .ok { payload := { pipeline := pipeline_type, companies := companies }
          results := results
          elapsed := elapsed
          file := written.map (fun d =>
            { name := output_dir ++ "/" ++ pipeline_type ++ "-pipeline-results.csv", data := d }) }

/-! ### Orchestrator (`main`, lines 75-111) -/

/-- Python `round` (banker's rounding) to the nearest integer, on the
rational idealization of the float argument. -/
def roundHalfEven (q : ℚ) : ℤ :=
  if q - ⌊q⌋ < 1/2 then ⌊q⌋
  else if 1/2 < q - ⌊q⌋ then ⌊q⌋ + 1
  else if 2 ∣ ⌊q⌋ then ⌊q⌋ else ⌊q⌋ + 1

/-- Python `round(q, 1)`. -/
def pyRound1 (q : ℚ) : ℚ :=
  (roundHalfEven (q * 10) : ℚ) / 10

/-- Line 80. -/
def output_dir : String := "/Users/rosssylvester/Desktop/FINAL"

/-- Line 8: the fixed endpoint. -/
def API_URL : String := "https://adrata-pipelines-8lsb7z0z0-adrata.vercel.app/api/production-ready"

/-- The values returned by the successive `time.time()` calls of one run:
line 87 (`total_start`), line 37 / line 46 inside each of the three
`run_single_pipeline` calls, and line 94 (end of run). -/
structure ClockTrace where
  totalStart : ℚ
  coreStart : ℚ
  coreEnd : ℚ
  advStart : ℚ
  advEnd : ℚ
  powStart : ℚ
  powEnd : ℚ
  totalEnd : ℚ
  deriving DecidableEq, Repr

/-- The summary dict of lines 103-108. -/
structure Summary where
  core : Nat
  advanced : Nat
  powerhouse : Nat
  total_time_minutes : ℚ
  deriving DecidableEq, Repr

/-- An error escaping `main`: a loader `KeyError` or an uncaught
exception from a batch. -/
inductive MainErr where
  | load (e : LoadError)
  | py (e : PyErr)
  deriving DecidableEq, Repr

/-- Observable outcome of a completed run: the three submitted payloads
in submission order, the three file-write outcomes, and the summary
written to `summary.json`. -/
structure MainOut where
  payloads : List Payload
  files : List (Option CsvFile)
  summary : Summary

/-- `main()`, lines 75-111, with the input file's rows, the three curl
outcomes and the clock as external inputs.  A `.error` result is an
uncaught exception: nothing after the raising statement runs and
`summary.json` is not written. -/
def main (rows : List Row) (coreFetch advFetch powFetch : Fetch) (clk : ClockTrace) :
    Except MainErr MainOut :=
  match load_companies rows none with
  | .error e => .error (.load e)
  | .ok all_companies =>
    match run_single_pipeline "core" all_companies output_dir coreFetch (clk.coreEnd - clk.coreStart) with
    | .error e => .error (.py e)
    | .ok core =>
      match run_single_pipeline "advanced" (all_companies.take 100) output_dir advFetch (clk.advEnd - clk.advStart) with
      | .error e => .error (.py e)
      | .ok adv =>
        match run_single_pipeline "powerhouse" (all_companies.take 10) output_dir powFetch (clk.powEnd - clk.powStart) with
        | .error e => .error (.py e)
        | .ok pow =>
          match pyLen core.results, pyLen adv.results, pyLen pow.results with
          | .ok nCore, .ok nAdv, .ok nPow =>
            .ok { payloads := [core.payload, adv.payload, pow.payload]
                  files := [core.file, adv.file, pow.file]
                  summary := { core := nCore
                               advanced := nAdv
                               powerhouse := nPow
                               total_time_minutes := pyRound1 ((clk.totalEnd - clk.totalStart) / 60) } }
          | .error e, _, _ => .error (.py e)
          | .ok _, .error e, _ => .error (.py e)
          | .ok _, .ok _, .error e => .error (.py e)

/-! ### The spec claim's reading of the companyName derivation

The claim describes the derivation as removing a single LEADING
`https://` or `http://`, then a single leading `www.`, then splitting,
then capitalizing the first letter of each whitespace-separated word.
The following definitions follow those words, for comparison with
`deriveCompanyName` (which embeds the code's replace-all semantics). -/

/-- Remove a leading `https://` or `http://` (case-sensitive literal
match), as the claim words it. -/
def stripProto (l : List Char) : List Char :=
  if ("https://".toList).isPrefixOf l then l.drop 8
  else if ("http://".toList).isPrefixOf l then l.drop 7
  else l

/-- Remove a leading `www.`, as the claim words it. -/
def stripWww (l : List Char) : List Char :=
  if ("www.".toList).isPrefixOf l then l.drop 4
  else l

/-- Capitalize the first letter of each whitespace-separated word,
leaving all other characters unchanged, as the claim words it. -/
def capWordsGo : Bool → List Char → List Char
  | _, [] => []
  | atStart, c :: cs =>
    if c.isWhitespace then c :: capWordsGo true cs
    else (if atStart then c.toUpper else c) :: capWordsGo false cs

/-- The `companyName` derivation exactly as claim C1 states it. -/
def claimCompanyName (website : String) : String :=
  String.mk (capWordsGo true ((splitChar '.' (stripWww (stripProto website.toList))).headD []))

/-! ### Error kinds of the spec's per-batch taxonomy -/

/-- The per-batch error outcomes the spec's taxonomy names and the code
catches: transport failure, a body `json.loads` rejects, or a parsed
JSON object (dict) without a `results` key. -/
def Benign (f : Fetch) : Prop :=
  f = .curlFail ∨ f = .parseFail ∨
    ∃ fields, f = .parsed (.obj fields) ∧
      fields.any (fun kv => kv.1 == "results") = false

/-! ### Concrete fixtures used by counterexamples and witnesses -/

/-- A well-formed input row. -/
def rowX : Row := [("Website", "x.com"), ("Account Owner", "o")]

/-- The record the loader derives from `rowX`. -/
def recX : Record := { companyName := "X", domain := "x.com", accountOwner := "o" }

/-- A clock trace in which every `time.time()` call returns `0`. -/
def clk0 : ClockTrace := ⟨0, 0, 0, 0, 0, 0, 0, 0⟩

/-- A clock trace with batch windows `[10,16]`, `[16,22]`, `[22,28]`
(six seconds each) inside a run lasting from `0` to `60`: the summed
batch time is 18 s while the run's own wall-clock span is 60 s. -/
def clk3 : ClockTrace := ⟨0, 10, 16, 16, 22, 22, 28, 60⟩

/-- The row of C1's counterexample: its `Website` contains a non-leading
`www.` occurrence inside the first DNS label. -/
def row1 : Row := [("Website", "https://xwww.y.com"), ("Account Owner", "o")]

/-- The record the loader derives from `row1`: the code's replace-all
removes the interior `www.`, leaving first label `xy`. -/
def rec1 : Record := { companyName := "Xy", domain := "https://xwww.y.com", accountOwner := "o" }

/-- The row of the spec's own companyName example. -/
def row9 : Row := [("Website", "https://www.Example.com/path"), ("Account Owner", "o")]

/-- The record the loader derives from `row9`. -/
def rec9 : Record :=
  { companyName := "Example", domain := "https://www.Example.com/path", accountOwner := "o" }

/-- A parsed response with a malformed `results` payload: the field is
present but holds a number, so `len(results)` raises `TypeError`. -/
def malformedFetch : Fetch := .parsed (.obj [("results", .num 5)])

/-- A parsed response carrying one well-formed result row. -/
def okFetch : Fetch := .parsed (.obj [("results", .arr [.obj [("a", .str "1")]])])

/-- What `run_single_pipeline "core" [] output_dir okFetch 2` returns. -/
def s5 : SubmitOut :=
  { payload := { pipeline := "core", companies := [] }
    results := .arr [.obj [("a", .str "1")]]
    elapsed := 2
    file := some { name := output_dir ++ "/" ++ "core" ++ "-pipeline-results.csv"
                   data := { header := ["a"], rows := [[.str "1"]] } } }

/-- The outcome of a run over `[rowX]` in which all three curl calls
fail at transport level, under clock `clk0`. -/
def outX : MainOut :=
  { payloads := [⟨"core", [recX]⟩, ⟨"advanced", [recX]⟩, ⟨"powerhouse", [recX]⟩]
    files := [none, none, none]
    summary := { core := 0, advanced := 0, powerhouse := 0
                 total_time_minutes := pyRound1 ((clk0.totalEnd - clk0.totalStart) / 60) } }

/-- The outcome of the same all-transport-failure run under `clk3`. -/
def outC3 : MainOut :=
  { payloads := [⟨"core", [recX]⟩, ⟨"advanced", [recX]⟩, ⟨"powerhouse", [recX]⟩]
    files := [none, none, none]
    summary := { core := 0, advanced := 0, powerhouse := 0
                 total_time_minutes := pyRound1 ((clk3.totalEnd - clk3.totalStart) / 60) } }

/-! ## Helper lemmas about the loader -/

theorem mkRecord_ok {row : Row} {r : Record} (h : mkRecord row = .ok r) :
    ∃ w o, row.lookup "Website" = some w ∧ row.lookup "Account Owner" = some o ∧
      r = ⟨deriveCompanyName w, w, o⟩ := by
  unfold mkRecord at h
  cases hw : row.lookup "Website" with
  | none => rw [hw] at h; exact absurd h (by simp)
  | some w =>
    rw [hw] at h
    cases ho : row.lookup "Account Owner" with
    | none => rw [ho] at h; exact absurd h (by simp)
    | some o =>
      rw [ho] at h
      injection h with h
      exact ⟨w, o, rfl, rfl, h.symm⟩

theorem mkRecord_error_iff (row : Row) :
    (∃ e, mkRecord row = .error e) ↔
      (row.lookup "Website" = none ∨ row.lookup "Account Owner" = none) := by
  unfold mkRecord
  cases hw : row.lookup "Website" with
  | none => simp
  | some w =>
    cases ho : row.lookup "Account Owner" with
    | none => simp
    | some o => simp

theorem load_go_none_length {rows : List Row} :
    ∀ {i : Nat} {recs : List Record}, load_companies_go none i rows = .ok recs →
      recs.length = rows.length := by
  induction rows with
  | nil => intro i recs h; simp only [load_companies_go] at h; injection h with h; simp [← h]
  | cons row rest ih =>
    intro i recs h
    simp only [load_companies_go, limitHit, if_false] at h
    cases hr : mkRecord row with
    | error e => rw [hr] at h; exact absurd h (by simp)
    | ok r =>
      rw [hr] at h
      cases hrest : load_companies_go none (i + 1) rest with
      | error e => rw [hrest] at h; exact absurd h (by simp)
      | ok rs =>
        rw [hrest] at h
        injection h with h
        simp [← h, ih hrest]

theorem load_go_invariant {rows : List Row} :
    ∀ {limit : Option Nat} {i : Nat} {recs : List Record},
      load_companies_go limit i rows = .ok recs →
      ∀ r ∈ recs, r.companyName = deriveCompanyName r.domain := by
  induction rows with
  | nil =>
    intro limit i recs h r hr
    simp only [load_companies_go] at h
    injection h with h
    rw [← h] at hr
    simp at hr
  | cons row rest ih =>
    intro limit i recs h r hr
    simp only [load_companies_go] at h
    split at h
    · injection h with h; rw [← h] at hr; simp at hr
    · cases hm : mkRecord row with
      | error e => rw [hm] at h; exact absurd h (by simp)
      | ok r0 =>
        rw [hm] at h
        cases hrest : load_companies_go limit (i + 1) rest with
        | error e => rw [hrest] at h; exact absurd h (by simp)
        | ok rs =>
          rw [hrest] at h
          injection h with h
          rw [← h] at hr
          cases hr with
          | head => obtain ⟨w, o, _, _, hr0⟩ := mkRecord_ok hm; rw [hr0]
          | tail _ htl => exact ih hrest r htl

theorem load_go_some_zero (rows : List Row) :
    ∀ i, load_companies_go (some 0) i rows = load_companies_go none i rows := by
  induction rows with
  | nil => intro i; simp [load_companies_go]
  | cons row rest ih =>
    intro i
    simp only [load_companies_go, limitHit]
    simp [ih (i + 1)]

theorem load_go_stop {n : Nat} (hn : n ≠ 0) (rows : List Row) :
    ∀ i, n ≤ i → load_companies_go (some n) i rows = .ok [] := by
  cases rows with
  | nil => intro i _; simp [load_companies_go]
  | cons row rest =>
    intro i hi
    simp [load_companies_go, limitHit, hn, hi]

theorem load_go_cons_nohit {limit : Option Nat} {i : Nat} {row : Row} {rest : List Row}
    (h : limitHit limit i = false) :
    load_companies_go limit i (row :: rest) =
      match mkRecord row with
      | .error e => .error e
      | .ok r =>
        match load_companies_go limit (i + 1) rest with
        | .error e => .error e
        | .ok rs => .ok (r :: rs) := by
  simp [load_companies_go, h]

theorem load_go_take {n : Nat} {rows : List Row} :
    ∀ {i : Nat}, i < n →
      load_companies_go (some n) i rows = load_companies_go none i (rows.take (n - i)) := by
  induction rows with
  | nil => intro i _; simp [load_companies_go]
  | cons row rest ih =>
    intro i hi
    have hnz : n ≠ 0 := by omega
    have hge : ¬ i ≥ n := by omega
    have hcond : limitHit (some n) i = false := by simp [limitHit, hge]
    have htk : (row :: rest).take (n - i) = row :: rest.take (n - (i + 1)) := by
      have h1 : n - i = (n - (i + 1)) + 1 := by omega
      rw [h1, List.take_succ_cons]
    rw [htk, load_go_cons_nohit hcond,
      @load_go_cons_nohit none i row (rest.take (n - (i + 1))) rfl]
    rcases Nat.lt_or_ge (i + 1) n with hlt1 | hge1
    · rw [ih hlt1]
    · have h0 : n - (i + 1) = 0 := by omega
      rw [load_go_stop hnz rest (i + 1) hge1, h0, List.take_zero]
      rfl

/-! ## Helper lemmas about the batch submitter -/

theorem mapExcept_ok_length {f : Json → Except PyErr (List Json)} :
    ∀ {xs : List Json} {ys : List (List Json)}, mapExcept f xs = .ok ys →
      ys.length = xs.length := by
  intro xs
  induction xs with
  | nil => intro ys h; simp only [mapExcept] at h; injection h with h; simp [← h]
  | cons x rest ih =>
    intro ys h
    simp only [mapExcept] at h
    cases hx : f x with
    | error e => rw [hx] at h; exact absurd h (by simp)
    | ok y =>
      rw [hx] at h
      cases hrest : mapExcept f rest with
      | error e => rw [hrest] at h; exact absurd h (by simp)
      | ok ys0 =>
        rw [hrest] at h
        injection h with h
        simp [← h, ih hrest]

theorem benign_processResponse {f : Fetch} (h : Benign f) :
    processResponse f = .ok (.arr [], none) := by
  rcases h with rfl | rfl | ⟨fields, rfl, hnone⟩
  · rfl
  · rfl
  · simp [processResponse, pyContains, hnone]

theorem processResponse_ok {f : Fetch} {res : Json} {w : Option CsvData}
    (h : processResponse f = .ok (res, w)) :
    (∃ n, pyLen res = .ok n) ∧
    ((∃ d, w = some d) ↔ ∃ x xs, res = Json.arr (x :: xs)) ∧
    (∀ d, w = some d → ∃ fields rest, res = Json.arr (Json.obj fields :: rest) ∧
      d.header = fields.map Prod.fst ∧ d.rows.length = rest.length + 1) := by
  cases f with
  | curlFail =>
    simp only [processResponse] at h
    injection h with h
    injection h with h1 h2
    subst h1; subst h2
    exact ⟨⟨0, rfl⟩, by simp, by intro d hd; simp at hd⟩
  | parseFail =>
    simp only [processResponse] at h
    injection h with h
    injection h with h1 h2
    subst h1; subst h2
    exact ⟨⟨0, rfl⟩, by simp, by intro d hd; simp at hd⟩
  | parsed data =>
    simp only [processResponse] at h
    cases hc : pyContains data "results" with
    | error e => rw [hc] at h; exact absurd h (by simp)
    | ok b =>
      rw [hc] at h
      cases b with
      | false =>
        injection h with h
        injection h with h1 h2
        subst h1; subst h2
        exact ⟨⟨0, rfl⟩, by simp, by intro d hd; simp at hd⟩
      | true =>
        cases hg : pyGetItem data "results" with
        | error e => rw [hg] at h; exact absurd h (by simp)
        | ok results =>
          rw [hg] at h
          dsimp only at h
          cases hl : pyLen results with
          | error e => rw [hl] at h; exact absurd h (by simp)
          | ok n =>
            rw [hl] at h
            dsimp only at h
            by_cases ht : pyTruthy results = true
            · rw [if_pos ht] at h
              cases hz : pyIndexZero results with
              | error e => rw [hz] at h; exact absurd h (by simp)
              | ok row0 =>
                rw [hz] at h
                dsimp only at h
                cases hk : pyKeys row0 with
                | error e => rw [hk] at h; exact absurd h (by simp)
                | ok fieldnames =>
                  rw [hk] at h
                  dsimp only at h
                  cases hi : pyIter results with
                  | error e => rw [hi] at h; exact absurd h (by simp)
                  | ok elems =>
                    rw [hi] at h
                    dsimp only at h
                    cases hm : mapExcept (dict_to_list fieldnames) elems with
                    | error e => rw [hm] at h; exact absurd h (by simp)
                    | ok rows =>
                      rw [hm] at h
                      injection h with h
                      injection h with h1 h2
                      subst h1; subst h2
                      cases row0 with
                      | obj fields =>
                        injection hk with hk
                        cases results with
                        | null => simp [pyIndexZero] at hz
                        | bool b' => simp [pyIndexZero] at hz
                        | num n' => simp [pyIndexZero] at hz
                        | str s =>
                          simp only [pyIndexZero] at hz
                          cases hs : s.toList with
                          | nil => rw [hs] at hz; exact absurd hz (by simp)
                          | cons c cs => rw [hs] at hz; exact absurd hz (by simp)
                        | obj fs => simp [pyIndexZero] at hz
                        | arr xs =>
                          cases xs with
                          | nil => simp [pyTruthy] at ht
                          | cons x rest =>
                            simp only [pyIndexZero] at hz
                            injection hz with hz
                            subst hz
                            injection hi with hi
                            subst hi
                            refine ⟨⟨rest.length + 1, rfl⟩, ?_, ?_⟩
                            · exact ⟨fun _ => ⟨_, _, rfl⟩, fun _ => ⟨_, rfl⟩⟩
                            · intro d hd
                              injection hd with hd
                              subst hd
                              exact ⟨fields, rest, rfl, hk.symm, mapExcept_ok_length hm⟩
                      | null => simp [pyKeys] at hk
                      | bool b' => simp [pyKeys] at hk
                      | num n' => simp [pyKeys] at hk
                      | str s => simp [pyKeys] at hk
                      | arr xs => simp [pyKeys] at hk
            · rw [if_neg ht] at h
              injection h with h
              injection h with h1 h2
              subst h1; subst h2
              refine ⟨⟨n, hl⟩, ?_, ?_⟩
              · constructor
                · intro hd; obtain ⟨d, hd⟩ := hd; simp at hd
                · intro hx
                  obtain ⟨x, xs, hx⟩ := hx
                  subst hx
                  simp [pyTruthy] at ht
              · intro d hd; simp at hd

theorem run_single_pipeline_ok {pt : String} {comps : List Record} {d : String} {f : Fetch}
    {e : ℚ} {s : SubmitOut} (h : run_single_pipeline pt comps d f e = .ok s) :
    ∃ w, processResponse f = .ok (s.results, w) ∧
      s.payload = ⟨pt, comps⟩ ∧ s.elapsed = e ∧
      s.file = w.map (fun dd => ⟨d ++ "/" ++ pt ++ "-pipeline-results.csv", dd⟩) := by
  unfold run_single_pipeline at h
  cases hp : processResponse f with
  | error e' => rw [hp] at h; exact absurd h (by simp)
  | ok p =>
    obtain ⟨res, w⟩ := p
    rw [hp] at h
    injection h with h
    subst h
    exact ⟨w, rfl, rfl, rfl, rfl⟩

/-! ## Helper lemmas about the orchestrator -/

theorem main_ok_build {rows : List Row} {recs : List Record} {f1 f2 f3 : Fetch}
    {clk : ClockTrace} {r1 r2 r3 : Json} {w1 w2 w3 : Option CsvData} {n1 n2 n3 : Nat}
    (hload : load_companies rows none = .ok recs)
    (hp1 : processResponse f1 = .ok (r1, w1)) (hp2 : processResponse f2 = .ok (r2, w2))
    (hp3 : processResponse f3 = .ok (r3, w3))
    (hl1 : pyLen r1 = .ok n1) (hl2 : pyLen r2 = .ok n2) (hl3 : pyLen r3 = .ok n3) :
    main rows f1 f2 f3 clk = .ok
      { payloads := [⟨"core", recs⟩, ⟨"advanced", recs.take 100⟩, ⟨"powerhouse", recs.take 10⟩]
        files :=
          [w1.map (fun d => ⟨output_dir ++ "/" ++ "core" ++ "-pipeline-results.csv", d⟩),
           w2.map (fun d => ⟨output_dir ++ "/" ++ "advanced" ++ "-pipeline-results.csv", d⟩),
           w3.map (fun d => ⟨output_dir ++ "/" ++ "powerhouse" ++ "-pipeline-results.csv", d⟩)]
        summary := { core := n1, advanced := n2, powerhouse := n3
                     total_time_minutes := pyRound1 ((clk.totalEnd - clk.totalStart) / 60) } } := by
  unfold main run_single_pipeline
  simp only [hload, hp1, hp2, hp3]
  simp only [hl1, hl2, hl3]

/-! ## Claims -/

/-- C1 (counterexample): the claim says `companyName` is obtained by
removing a LEADING `https://`/`http://` and then a leading `www.`,
splitting on `.` and capitalizing whitespace-separated words.  On
`Website = "https://xwww.y.com"` the code's replace-all also deletes the
interior `www.` and produces `"Xy"`, while the claim's leading-only
procedure produces `"Xwww"`. -/
theorem C1_counterexample :
    load_companies [row1] none = .ok [rec1] ∧
    claimCompanyName "https://xwww.y.com" = "Xwww" ∧
    rec1.companyName ≠ claimCompanyName "https://xwww.y.com" :=
  ⟨rfl, by decide, by decide⟩

/-- C1 (amended): for every record produced by the Record Loader,
`companyName` is derived from the row's `Website` string by removing
EVERY occurrence of `https://`, then every occurrence of `http://`,
then every occurrence of `www.` (case-sensitive, left to right,
non-overlapping), splitting on `.` and taking the first segment, then
Python title-casing it (each alphabetic character that follows a
non-alphabetic one is uppercased, every other alphabetic character is
lowercased) — the computation `deriveCompanyName` applied to the
record's `domain` (the verbatim `Website` string). -/
theorem C1_amended (rows : List Row) (limit : Option Nat) (recs : List Record)
    (hload : load_companies rows limit = .ok recs) :
    ∀ r ∈ recs, r.companyName = deriveCompanyName r.domain := by
  have hload' : load_companies_go limit 0 rows = .ok recs := hload
  exact load_go_invariant hload'

/-- C1 (witness for the amended claim at a concrete input). -/
theorem C1_amended_witness : rec1.companyName = deriveCompanyName rec1.domain :=
  C1_amended [row1] none [rec1] rfl rec1 (by simp)

/-- C2 (counterexample): a per-batch error of the kind "malformed
`results` payload" is NOT confined to its batch: when the core batch's
response is `{"results": 5}`, `len(results)` raises an uncaught
`TypeError`, the run aborts — the advanced and powerhouse batches are
never submitted and `summary.json` is never written. -/
theorem C2_counterexample :
    main [rowX] malformedFetch .curlFail .curlFail clk0 = .error (.py .typeError) := rfl

/-- C2 (amended): every per-batch error of a kind the code catches
(transport failure, unparseable response body, or a parsed JSON object
lacking a `results` field) is confined to that batch: the batch yields
an empty result sequence, every batch is still submitted, and the
summary is still produced, recording 0 results for the failed mode.
(Quantified over runs whose three responses each either are of such a
benign kind or process without an uncaught exception.) -/
theorem C2_amended (rows : List Row) (recs : List Record) (f1 f2 f3 : Fetch) (clk : ClockTrace)
    (hload : load_companies rows none = .ok recs)
    (h1 : ∃ v, processResponse f1 = .ok v) (h2 : ∃ v, processResponse f2 = .ok v)
    (h3 : ∃ v, processResponse f3 = .ok v) :
    ∃ out, main rows f1 f2 f3 clk = .ok out ∧
      out.payloads = [⟨"core", recs⟩, ⟨"advanced", recs.take 100⟩, ⟨"powerhouse", recs.take 10⟩] ∧
      (Benign f1 → out.summary.core = 0) ∧
      (Benign f2 → out.summary.advanced = 0) ∧
      (Benign f3 → out.summary.powerhouse = 0) := by
  obtain ⟨⟨r1, w1⟩, hp1⟩ := h1
  obtain ⟨⟨r2, w2⟩, hp2⟩ := h2
  obtain ⟨⟨r3, w3⟩, hp3⟩ := h3
  obtain ⟨⟨n1, hl1⟩, -, -⟩ := processResponse_ok hp1
  obtain ⟨⟨n2, hl2⟩, -, -⟩ := processResponse_ok hp2
  obtain ⟨⟨n3, hl3⟩, -, -⟩ := processResponse_ok hp3
  refine ⟨_, main_ok_build hload hp1 hp2 hp3 hl1 hl2 hl3, rfl, ?_, ?_, ?_⟩
  · intro hb
    have hben := benign_processResponse hb
    rw [hp1] at hben
    injection hben with hben
    injection hben with ha hw
    subst ha
    injection hl1 with h0
    exact h0.symm
  · intro hb
    have hben := benign_processResponse hb
    rw [hp2] at hben
    injection hben with hben
    injection hben with ha hw
    subst ha
    injection hl2 with h0
    exact h0.symm
  · intro hb
    have hben := benign_processResponse hb
    rw [hp3] at hben
    injection hben with hben
    injection hben with ha hw
    subst ha
    injection hl3 with h0
    exact h0.symm

/-- C2 (witness for the amended claim at a concrete input). -/
theorem C2_amended_witness :
    ∃ out, main [rowX] .parseFail .curlFail .curlFail clk0 = .ok out ∧
      out.payloads = [⟨"core", [recX]⟩, ⟨"advanced", ([recX] : List Record).take 100⟩,
        ⟨"powerhouse", ([recX] : List Record).take 10⟩] ∧
      (Benign .parseFail → out.summary.core = 0) ∧
      (Benign .curlFail → out.summary.advanced = 0) ∧
      (Benign .curlFail → out.summary.powerhouse = 0) :=
  C2_amended [rowX] [recX] .parseFail .curlFail .curlFail clk0 rfl
    ⟨(.arr [], none), rfl⟩ ⟨(.arr [], none), rfl⟩ ⟨(.arr [], none), rfl⟩

/-- C3 (counterexample): `total_time_minutes` is the orchestrator's own
wall-clock span divided by 60, not the sum of the three batch elapsed
times divided by 60.  Under `clk3` the batches take 6 s each (sum 18 s,
claimed value 0.3) while the run spans 60 s, so the code writes 1.0. -/
theorem C3_counterexample :
    main [rowX] .curlFail .curlFail .curlFail clk3 = .ok outC3 ∧
    outC3.summary.total_time_minutes ≠
      pyRound1 (((clk3.coreEnd - clk3.coreStart) + (clk3.advEnd - clk3.advStart) +
        (clk3.powEnd - clk3.powStart)) / 60) := by
  constructor
  · rfl
  · norm_num [outC3, clk3, pyRound1, roundHalfEven]

/-- C3 (amended): for every run, the `total_time_minutes` value written
to `summary.json` equals the orchestrator's own end-to-end wall-clock
measurement (final `time.time()` minus `total_start`, which also spans
payload serialization and all overhead between batches), divided by 60,
rounded to one decimal place — not the sum of the three batch elapsed
times. -/
theorem C3_amended (rows : List Row) (f1 f2 f3 : Fetch) (clk : ClockTrace) (out : MainOut)
    (h : main rows f1 f2 f3 clk = .ok out) :
    out.summary.total_time_minutes = pyRound1 ((clk.totalEnd - clk.totalStart) / 60) := by
  unfold main at h
  cases hload : load_companies rows none with
  | error e => rw [hload] at h; exact absurd h (by simp)
  | ok recs =>
    rw [hload] at h
    dsimp only at h
    cases hc : run_single_pipeline "core" recs output_dir f1 (clk.coreEnd - clk.coreStart) with
    | error e => rw [hc] at h; exact absurd h (by simp)
    | ok core =>
      rw [hc] at h
      dsimp only at h
      cases hA : run_single_pipeline "advanced" (recs.take 100) output_dir f2
          (clk.advEnd - clk.advStart) with
      | error e => rw [hA] at h; exact absurd h (by simp)
      | ok adv =>
        rw [hA] at h
        dsimp only at h
        cases hP : run_single_pipeline "powerhouse" (recs.take 10) output_dir f3
            (clk.powEnd - clk.powStart) with
        | error e => rw [hP] at h; exact absurd h (by simp)
        | ok powb =>
          rw [hP] at h
          dsimp only at h
          cases hn1 : pyLen core.results with
          | error e => rw [hn1] at h; exact absurd h (by simp)
          | ok n1 =>
            rw [hn1] at h
            cases hn2 : pyLen adv.results with
            | error e => rw [hn2] at h; exact absurd h (by simp)
            | ok n2 =>
              rw [hn2] at h
              cases hn3 : pyLen powb.results with
              | error e => rw [hn3] at h; exact absurd h (by simp)
              | ok n3 =>
                rw [hn3] at h
                injection h with h
                rw [← h]

/-- C3 (witness for the amended claim at a concrete input). -/
theorem C3_amended_witness :
    outX.summary.total_time_minutes = pyRound1 ((clk0.totalEnd - clk0.totalStart) / 60) :=
  C3_amended [rowX] .curlFail .curlFail .curlFail clk0 outX rfl

/-- C4 (counterexample): with a maximum count of 0 and a one-row file,
the loader returns one record, not the `min(0, 1) = 0` records the
claim requires (Python's `if limit and i >= limit` treats 0 as "no
limit"). -/
theorem C4_counterexample :
    load_companies [rowX] (some 0) = .ok [recX] ∧
    ([recX] : List Record).length ≠ min 0 ([rowX] : List Row).length :=
  ⟨rfl, by decide⟩

/-- C4 (amended): for every input file and every POSITIVE maximum count
`n`, the Record Loader behaves exactly as the loader run on the first
`min(n, total row count)` input rows with no limit — so it returns the
records of those rows in input row order, and a returned sequence never
holds more than `n` records (a maximum count of 0 disables truncation
instead, see C10). -/
theorem C4_amended (rows : List Row) (n : Nat) (hn : 0 < n) :
    load_companies rows (some n) = load_companies (rows.take n) none ∧
    ∀ recs, load_companies rows (some n) = .ok recs → recs.length = min n rows.length := by
  have heq0 : load_companies_go (some n) 0 rows = load_companies_go none 0 (rows.take (n - 0)) :=
    load_go_take hn
  rw [Nat.sub_zero] at heq0
  have heq : load_companies rows (some n) = load_companies (rows.take n) none := heq0
  refine ⟨heq, fun recs h => ?_⟩
  rw [heq] at h
  have hlen : recs.length = (rows.take n).length := load_go_none_length h
  rw [hlen, List.length_take]

/-- C4 (witness for the amended claim at a concrete input). -/
theorem C4_amended_witness :
    load_companies [rowX, rowX] (some 1) = load_companies ([rowX, rowX].take 1) none ∧
    ([recX] : List Record).length = min 1 ([rowX, rowX] : List Row).length :=
  ⟨(C4_amended [rowX, rowX] 1 Nat.one_pos).1,
   (C4_amended [rowX, rowX] 1 Nat.one_pos).2 [recX] rfl⟩

/-- C5: for every mode, when `run_single_pipeline` completes without an
uncaught exception, a results file named
`<output dir>/<mode>-pipeline-results.csv` is written if and only if
the returned result sequence is non-empty; when written, its header is
the first returned row's key sequence in that row's key order, and its
number of data rows equals the number of returned result rows. -/
theorem C5_results_file (pt : String) (comps : List Record) (d : String) (f : Fetch) (e : ℚ)
    (s : SubmitOut) (h : run_single_pipeline pt comps d f e = .ok s) :
    ((∃ fl, s.file = some fl) ↔ ∃ x xs, s.results = Json.arr (x :: xs)) ∧
    ∀ fl, s.file = some fl →
      fl.name = d ++ "/" ++ pt ++ "-pipeline-results.csv" ∧
      ∃ fields rest, s.results = Json.arr (Json.obj fields :: rest) ∧
        fl.data.header = fields.map Prod.fst ∧
        fl.data.rows.length = rest.length + 1 := by
  obtain ⟨w, hp, hpay, hel, hfile⟩ := run_single_pipeline_ok h
  obtain ⟨-, hiff, hshape⟩ := processResponse_ok hp
  constructor
  · constructor
    · rintro ⟨fl, hfl⟩
      rw [hfile] at hfl
      cases w with
      | none => simp at hfl
      | some dd => exact hiff.mp ⟨dd, rfl⟩
    · intro hx
      obtain ⟨d', hd'⟩ := hiff.mpr hx
      rw [hfile, hd']
      exact ⟨_, rfl⟩
  · intro fl hfl
    rw [hfile] at hfl
    cases w with
    | none => simp at hfl
    | some dd =>
      injection hfl with hfl
      subst hfl
      obtain ⟨fields, rest, hres, hhead, hlen⟩ := hshape dd rfl
      exact ⟨rfl, fields, rest, hres, hhead, hlen⟩

/-- C5 (witness at a concrete input with one returned row). -/
theorem C5_results_file_witness :
    run_single_pipeline "core" [] output_dir okFetch 2 = .ok s5 ∧
    ((∃ fl, s5.file = some fl) ↔ ∃ x xs, s5.results = Json.arr (x :: xs)) :=
  ⟨rfl, (C5_results_file "core" [] output_dir okFetch 2 s5 rfl).1⟩

/-- C6: for every run that completes, the loader returns one record per
input row, and the three batches are submitted in the fixed order
"core" with all loaded records, then "advanced" with the first
`min(N, 100)` records, then "powerhouse" with the first `min(N, 10)`
records, each keeping input row order (`List.take` of the loaded
sequence). -/
theorem C6_batch_order (rows : List Row) (f1 f2 f3 : Fetch) (clk : ClockTrace)
    (recs : List Record) (out : MainOut)
    (hload : load_companies rows none = .ok recs)
    (hmain : main rows f1 f2 f3 clk = .ok out) :
    recs.length = rows.length ∧
    out.payloads = [⟨"core", recs⟩, ⟨"advanced", recs.take 100⟩, ⟨"powerhouse", recs.take 10⟩] := by
  have hload' : load_companies_go none 0 rows = .ok recs := hload
  refine ⟨load_go_none_length hload', ?_⟩
  unfold main at hmain
  rw [hload] at hmain
  dsimp only at hmain
  cases hc : run_single_pipeline "core" recs output_dir f1 (clk.coreEnd - clk.coreStart) with
  | error e => rw [hc] at hmain; exact absurd hmain (by simp)
  | ok core =>
    rw [hc] at hmain
    dsimp only at hmain
    cases hA : run_single_pipeline "advanced" (recs.take 100) output_dir f2
        (clk.advEnd - clk.advStart) with
    | error e => rw [hA] at hmain; exact absurd hmain (by simp)
    | ok adv =>
      rw [hA] at hmain
      dsimp only at hmain
      cases hP : run_single_pipeline "powerhouse" (recs.take 10) output_dir f3
          (clk.powEnd - clk.powStart) with
      | error e => rw [hP] at hmain; exact absurd hmain (by simp)
      | ok powb =>
        rw [hP] at hmain
        dsimp only at hmain
        cases hn1 : pyLen core.results with
        | error e => rw [hn1] at hmain; exact absurd hmain (by simp)
        | ok n1 =>
          rw [hn1] at hmain
          cases hn2 : pyLen adv.results with
          | error e => rw [hn2] at hmain; exact absurd hmain (by simp)
          | ok n2 =>
            rw [hn2] at hmain
            cases hn3 : pyLen powb.results with
            | error e => rw [hn3] at hmain; exact absurd hmain (by simp)
            | ok n3 =>
              rw [hn3] at hmain
              injection hmain with hmain
              obtain ⟨w1, -, hpay1, -, -⟩ := run_single_pipeline_ok hc
              obtain ⟨w2, -, hpay2, -, -⟩ := run_single_pipeline_ok hA
              obtain ⟨w3, -, hpay3, -, -⟩ := run_single_pipeline_ok hP
              rw [← hmain]
              show [core.payload, adv.payload, powb.payload] = _
              rw [hpay1, hpay2, hpay3]

/-- C6 (witness at a concrete one-row run). -/
theorem C6_batch_order_witness :
    ([recX] : List Record).length = ([rowX] : List Row).length ∧
    outX.payloads = [⟨"core", [recX]⟩, ⟨"advanced", ([recX] : List Record).take 100⟩,
      ⟨"powerhouse", ([recX] : List Record).take 10⟩] :=
  C6_batch_order [rowX] .curlFail .curlFail .curlFail clk0 [recX] outX rfl rfl

/-- C7 (counterexample): when the parsed response is the scalar JSON
value `5`, the response lacks a `results` field, yet the submitter does
not return `(empty sequence, elapsed)` — Python `'results' in 5` raises
an uncaught `TypeError`. -/
theorem C7_counterexample :
    run_single_pipeline "core" [] output_dir (.parsed (.num 5)) 0 = .error .typeError := rfl

/-- C7 (amended): for every submission, if the transport call fails
(non-zero exit status), or the response body is not valid JSON, or the
parsed response is a JSON OBJECT lacking a `results` field, then the
Batch Submitter returns the pair (empty sequence, elapsed) and writes
no results file for that mode. -/
theorem C7_amended (pt : String) (comps : List Record) (d : String) (f : Fetch) (e : ℚ)
    (h : Benign f) :
    run_single_pipeline pt comps d f e =
      .ok { payload := ⟨pt, comps⟩, results := .arr [], elapsed := e, file := none } := by
  unfold run_single_pipeline
  rw [benign_processResponse h]
  rfl

/-- C7 (witness for the amended claim at a concrete input). -/
theorem C7_amended_witness :
    run_single_pipeline "core" [] output_dir .curlFail 0 =
      .ok { payload := ⟨"core", []⟩, results := .arr [], elapsed := 0, file := none } :=
  C7_amended "core" [] output_dir .curlFail 0 (Or.inl rfl)

/-- C8: a row projection fails (with a `MissingFieldError`, the only
loader error) if and only if the row lacks a `Website` field or an
`Account Owner` field, and a loader failure is not caught: `main`
terminates with that error, so no batch is submitted and no summary is
written. -/
theorem C8_missing_field :
    (∀ row : Row, (∃ e, mkRecord row = .error e) ↔
      (row.lookup "Website" = none ∨ row.lookup "Account Owner" = none)) ∧
    (∀ (rows : List Row) (f1 f2 f3 : Fetch) (clk : ClockTrace) (e : LoadError),
      load_companies rows none = .error e → main rows f1 f2 f3 clk = .error (.load e)) := by
  constructor
  · exact mkRecord_error_iff
  · intro rows f1 f2 f3 clk e h
    unfold main
    rw [h]

/-- C8 (witness at a concrete input: the empty row). -/
theorem C8_missing_field_witness :
    (∃ e, mkRecord ([] : Row) = .error e) ∧
    main [([] : Row)] .curlFail .curlFail .curlFail clk0 =
      .error (.load (.missingField "Website")) :=
  ⟨(C8_missing_field.1 []).mpr (Or.inl rfl),
   C8_missing_field.2 [[]] .curlFail .curlFail .curlFail clk0 (.missingField "Website") rfl⟩

/-- C9: every record the loader produces from a row whose `Website`
field (copied verbatim into `domain`) equals
`"https://www.Example.com/path"` has `companyName = "Example"`. -/
theorem C9_example_row (rows : List Row) (limit : Option Nat) (recs : List Record) (r : Record)
    (hload : load_companies rows limit = .ok recs) (hr : r ∈ recs)
    (hw : r.domain = "https://www.Example.com/path") :
    r.companyName = "Example" := by
  have hload' : load_companies_go limit 0 rows = .ok recs := hload
  have hinv := load_go_invariant hload' r hr
  rw [hinv, hw]
  decide

/-- C9 (witness at a concrete input). -/
theorem C9_example_row_witness :
    load_companies [row9] none = .ok [rec9] ∧ rec9.companyName = "Example" :=
  ⟨rfl, C9_example_row [row9] none [rec9] rec9 rfl (by simp) rfl⟩

/-- C10: calling the loader with a maximum count of 0 behaves exactly
like calling it with no limit (Python truthiness of `limit` in
`if limit and i >= limit`), so it returns one record per input row
rather than an empty sequence. -/
theorem C10_zero_limit (rows : List Row) :
    load_companies rows (some 0) = load_companies rows none ∧
    ∀ recs, load_companies rows (some 0) = .ok recs → recs.length = rows.length := by
  have heq : load_companies rows (some 0) = load_companies rows none := load_go_some_zero rows 0
  refine ⟨heq, fun recs h => ?_⟩
  rw [heq] at h
  have h' : load_companies_go none 0 rows = .ok recs := h
  exact load_go_none_length h'

/-- C10 (witness at a concrete input). -/
theorem C10_zero_limit_witness :
    load_companies [rowX] (some 0) = load_companies [rowX] none ∧
    ([recX] : List Record).length = ([rowX] : List Row).length :=
  ⟨(C10_zero_limit [rowX]).1, (C10_zero_limit [rowX]).2 [recX] rfl⟩

end Adrata
